import Mathlib

/-!
# Verification of the ETHInfants blockchain-data scripts

A shallow embedding of the Python sources `getcontract2.py`, `getcontract3.py`
and `getpools.py`, together with theorems settling the specification claims.

Python dictionaries that flow through the pipeline are embedded as association
lists `List (String × Value)`, so that heterogeneous key sets (which the code
genuinely produces) are representable.  Network effects of `requests` are
abstracted as explicit outcome parameters: every call site receives the
upstream outcome as an argument.  An uncaught Python exception (`KeyError`
from a direct dictionary subscript, `ValueError` from `int(_, 16)`) is
embedded as `Except.error`; a value returned normally is `Except.ok`.
-/

/-- A JSON-ish value, the payloads stored in the dictionaries the scripts
build and inspect. -/
inductive Value where
  | str (s : String)
  | nat (n : Nat)
  | bool (b : Bool)
  | null
deriving Repr, DecidableEq

/-- A Python dictionary with string keys, embedded as an ordered association
list (Python 3.7+ dictionaries preserve insertion order, which matters for
`dict.keys()` and hence for the CSV header). -/
abbrev Record := List (String × Value)

/-- `d.get(k)` / `d[k]` key lookup: first binding of the key, if any. -/
def dictLookup : Record → String → Option Value
  | [], _ => none
  | (k2, v) :: rest, k => if k2 = k then some v else dictLookup rest k

/-- `d.keys()` in insertion order. -/
def recordKeys (r : Record) : List String := r.map Prod.fst

/-- Python's `hex` builtin: `"0x"`-prefixed lowercase hexadecimal, with a
leading minus sign for negative arguments (`hex(0) = "0x0"`). -/
def pyHex (n : Int) : String :=
  if n < 0 then "-0x" ++ (Nat.toDigits 16 (-n).toNat).asString
  else "0x" ++ (Nat.toDigits 16 n.toNat).asString

/-- One hexadecimal digit of Python's `int(_, 16)`: `0-9`, `a-f`, `A-F`. -/
def hexDigitVal (c : Char) : Option Nat :=
  if '0' ≤ c ∧ c ≤ '9' then some (c.toNat - '0'.toNat)
  else if 'a' ≤ c ∧ c ≤ 'f' then some (c.toNat - 'a'.toNat + 10)
  else if 'A' ≤ c ∧ c ≤ 'F' then some (c.toNat - 'A'.toNat + 10)
  else none

/-- Accumulating loop of the base-16 parse; `none` on the first invalid
character. -/
def parseHexCore (acc : Nat) : List Char → Option Nat
  | [] => some acc
  | c :: rest =>
    match hexDigitVal c with
    | some d => parseHexCore (acc * 16 + d) rest
    | none => none

/-- Python's `int(s, 16)` on the non-negative hex strings the scripts feed it
(an optional `"0x"`/`"0X"` prefix followed by at least one hex digit);
`none` embeds the `ValueError` raised on anything else.  The sign,
underscore and surrounding-whitespace forms accepted by Python never occur
here and are not modelled. -/
def parseHexNat (s : String) : Option Nat :=
  let cs :=
    match s.toList with
    | '0' :: 'x' :: rest => rest
    | '0' :: 'X' :: rest => rest
    | other => other
  match cs with
  | [] => none
  | _ => parseHexCore 0 cs

/-- One entry of the JSON-RPC batch built by `create_batch_request`:
the dictionary
`{"jsonrpc": "2.0", "id": block_num, "method": "eth_getBlockByNumber",
  "params": [hex(block_num), True]}`. -/
structure RpcCall where
  jsonrpc : String
  id : Int
  method : String
  params : String × Bool
deriving Repr, DecidableEq

/-- A transaction object of a fetched block, as consumed by
`filter_contract_creations`.  `to` distinguishes the three states the code
distinguishes: key absent (`none` — `tx['to']` raises `KeyError`), key
present with JSON null (`some none`), key present with an address
(`some (some a)`).  `creates` is `none` when the key is absent or null
(both falsify `'creates' in tx and tx['creates']`); an empty string is
likewise falsy. -/
structure Transaction where
  hash : String
  from_ : String
  to_ : Option (Option String)
  value : String
  gasPrice : String
  creates : Option String
deriving Repr, DecidableEq

/-- The block object stored under a result's `result` key: the hex-encoded
`number` field and the transaction list (`.get('transactions', [])`; an
absent list is identified with the empty one). -/
structure BlockPayload where
  number : String
  transactions : List Transaction
deriving Repr, DecidableEq

/-- One element of the batch response.  `result = none` embeds both an
absent `result` key and a falsy one (`'result' not in block or not
block['result']`), the cases the filter skips. -/
structure BlockResult where
  result : Option BlockPayload
deriving Repr, DecidableEq

/-- The outcome of one Etherscan GET as `check_contract_verification`
observes it: either a parsed JSON dictionary, or a raised
`requests.RequestException` (transport failure, non-success HTTP status via
`raise_for_status`, or a JSON parse failure) carrying its message. -/
inductive EtherscanOutcome where
  | ok (data : Record)
  | reqError (msg : String)
deriving Repr, DecidableEq

/-- The outcome of the batched `requests.post` in `fetch_blocks`: either a
successfully parsed list of per-call results, or a raised
`requests.RequestException` (covering transport failure, a non-success
status raised by `raise_for_status`, and a JSON parse failure). -/
inductive FetchOutcome where
  | ok (body : List BlockResult)
  | reqError (msg : String)
deriving Repr, DecidableEq

/-- The observable effect of `save_to_csv`: either no file was written and
the "nothing to save" message was printed, or a file was written with the
given header and data rows and the success message was printed. -/
inductive SaveResult where
  | nothingSaved (msg : String)
  | saved (header : List String) (rows : List (List String)) (msg : String)
deriving Repr, DecidableEq

namespace BlockchainDataCollector

/-- `BlockchainDataCollector.create_batch_request` (getcontract2.py lines
11-23; `ContractGet.create_batch_request` in getcontract3.py is identical):
one `RpcCall` per block number in Python's `range(start_block, end_block + 1)`. -/
def create_batch_request (start_block end_block : Int) : List RpcCall :=
  (List.range (end_block + 1 - start_block).toNat).map (fun (i : Nat) =>
    { jsonrpc := "2.0"
      id := start_block + (i : Int)
      method := "eth_getBlockByNumber"
      params := (pyHex (start_block + (i : Int)), true) })

/-- `BlockchainDataCollector.fetch_blocks` (getcontract2.py lines 25-47;
`ContractGet.fetch_blocks` in getcontract3.py differs only in diagnostics):
builds the batch, performs a single `requests.post` with it — abstracted by
`transport` — and on any `requests.RequestException` returns `[]`.  The
second component of the result records the requests actually issued, in
order, so that "exactly one call, carrying the whole batch" is a statement
about the function. -/
def fetch_blocks (start_block end_block : Int)
    (transport : List RpcCall → FetchOutcome) :
    List BlockResult × List (List RpcCall) :=
  let batch_request := create_batch_request start_block end_block
  match transport batch_request with
  | .ok body => (body, [batch_request])
  | .reqError _ => ([], [batch_request])

/-- `BlockchainDataCollector.check_contract_verification` (getcontract2.py
lines 104-142; identical in getcontract3.py).  The network call is
abstracted by the `o` argument.  `data['status']` is a direct subscript:
an absent `status` key raises an uncaught `KeyError`, embedded as
`Except.error`.  The `except requests.RequestException` branch returns the
not-verified record carrying the exception text. -/
def check_contract_verification (contract_address : String)
    (o : EtherscanOutcome) : Except String Record :=
  match o with
  | .ok data =>
    match dictLookup data "status" with
    | none => .error "KeyError: status"
    | some status =>
      .ok [("address", .str contract_address),
           ("verified", .bool (status == .str "1")),
           ("message", (dictLookup data "message").getD (.str "Unknown")),
           ("result", (dictLookup data "result").getD .null)]
  | .reqError e =>
    .ok [("address", .str contract_address),
         ("verified", .bool false),
         ("message", .str e),
         ("result", .null)]

/-- The `contract_info` dictionary built for every contract-creation
transaction (getcontract2.py lines 63-69), before the optional `creates`
extension. -/
def mkBaseSummary (block_number : Nat) (tx : Transaction) : Record :=
  [("txHash", .str tx.hash),
   ("blockNumber", .nat block_number),
   ("creator", .str tx.from_),
   ("value", .str tx.value),
   ("gasPrice", .str tx.gasPrice)]

/-- The per-transaction body of the filter loop (getcontract2.py lines
61-82): `tx['to']` raises `KeyError` when absent; a non-null `to` emits
nothing; a null `to` emits `contract_info`, extended with the three
verification keys when `creates` is present and truthy.  `net` supplies
the Etherscan outcome for each looked-up address. -/
def processTx (block_number : Nat) (net : String → EtherscanOutcome)
    (tx : Transaction) : Except String (Option Record) :=
  match tx.to_ with
  | none => .error "KeyError: to"
  | some (some _) => .ok none
  | some none =>
    let contract_info := mkBaseSummary block_number tx
    match tx.creates with
    | none => .ok (some contract_info)
    | some c =>
      if c = "" then .ok (some contract_info)
      else
        match check_contract_verification c (net c) with
        | .error e => .error e
        | .ok verification_info =>
          match dictLookup verification_info "verified",
              dictLookup verification_info "message" with
          | some v, some m =>
            .ok (some (contract_info ++
              [("contractAddress", .str c),
               ("verified", v),
               ("verificationMessage", m)]))
          | none, _ => .error "KeyError: verified"
          | some _, none => .error "KeyError: message"

/-- The inner `for tx in transactions` loop, accumulating emitted summaries
in transaction order and propagating any uncaught exception. -/
def processTxs (block_number : Nat) (net : String → EtherscanOutcome) :
    List Transaction → Except String (List Record)
  | [] => .ok []
  | tx :: rest =>
    match processTx block_number net tx with
    | .error e => .error e
    | .ok o =>
      match processTxs block_number net rest with
      | .error e => .error e
      | .ok more =>
        match o with
        | some r => .ok (r :: more)
        | none => .ok more

/-- The per-block body of the filter loop: skip unusable results, decode
`int(block['result']['number'], 16)` (a `ValueError` on a malformed field
is an uncaught exception), then run the transaction loop. -/
def processBlock (net : String → EtherscanOutcome) (block : BlockResult) :
    Except String (List Record) :=
  match block.result with
  | none => .ok []
  | some payload =>
    match parseHexNat payload.number with
    | none => .error "ValueError: invalid literal for int with base 16"
    | some block_number => processTxs block_number net payload.transactions

/-- `BlockchainDataCollector.filter_contract_creations` (getcontract2.py
lines 49-84): the outer `for block in blocks_data` loop over the batch
response, concatenating the per-block summaries in block order. -/
def filter_contract_creations (blocks_data : List BlockResult)
    (net : String → EtherscanOutcome) : Except String (List Record) :=
  match blocks_data with
  | [] => .ok []
  | block :: rest =>
    match processBlock net block with
    | .error e => .error e
    | .ok rs =>
      match filter_contract_creations rest net with
      | .error e => .error e
      | .ok more => .ok (rs ++ more)

/-- The string `csv.DictWriter` writes for one cell: `str` of the value,
with `None` (and a missing key, whose `restval` default is `None`) written
as the empty string. -/
def csvCell : Option Value → String
  | none => ""
  | some .null => ""
  | some (.str s) => s
  | some (.nat n) => toString n
  | some (.bool b) => if b then "True" else "False"

/-- `csv.DictWriter.writerow` for one record against the fixed field names:
a `ValueError` (uncaught by the `except IOError` handler) if the record has
a key outside the field names, otherwise the row of cells in field order. -/
def writeRow (fieldnames : List String) (r : Record) :
    Except String (List String) :=
  if r.all (fun kv => fieldnames.contains kv.1) then
    .ok (fieldnames.map (fun k => csvCell (dictLookup r k)))
  else .error "ValueError: dict contains fields not in fieldnames"

/-- `csv.DictWriter.writerows`: `writerow` on each record in order. -/
def writeRowsAux (fieldnames : List String) :
    List Record → Except String (List (List String))
  | [] => .ok []
  | r :: rest =>
    match writeRow fieldnames r with
    | .error e => .error e
    | .ok row =>
      match writeRowsAux fieldnames rest with
      | .error e => .error e
      | .ok more => .ok (row :: more)

/-- `BlockchainDataCollector.save_to_csv` (getcontract2.py lines 86-102;
identical in getcontract3.py): an empty list prints a message and returns
without opening the file; otherwise the header is
`contracts[0].keys()` and one row is written per record.  The successfully
written file content is returned as a `SaveResult`; the environmental
`IOError` branch (downgraded to a log line by the code) is outside this
pure model. -/
def save_to_csv (contracts : List Record) : Except String SaveResult :=
  match contracts with
  | [] => .ok (.nothingSaved "No contracts to save")
  | c :: rest =>
    match writeRowsAux (recordKeys c) (c :: rest) with
    | .error e => .error e
    | .ok rows =>
      .ok (.saved (recordKeys c) rows
        ("Saved " ++ toString (c :: rest).length ++
          " contracts to contract_creations.csv"))

/-! ### Specification-side companions for the filter

The functions below restate what the filter produces on inputs that raise
no exception; the characterization lemmas connect them to the embedded
code. -/

/-- The Etherscan outcomes on which `check_contract_verification` raises
nothing: any request failure, or a parsed body carrying a `status` key. -/
def statusPresent : EtherscanOutcome → Bool
  | .ok data => (dictLookup data "status").isSome
  | .reqError _ => true

/-- The record `check_contract_verification` returns when it does not
raise, as a total function (the `status` lookup defaulted). -/
def checkResultGood (contract_address : String) (o : EtherscanOutcome) :
    Record :=
  match o with
  | .ok data =>
    [("address", .str contract_address),
     ("verified", .bool ((dictLookup data "status").getD .null == .str "1")),
     ("message", (dictLookup data "message").getD (.str "Unknown")),
     ("result", (dictLookup data "result").getD .null)]
  | .reqError e =>
    [("address", .str contract_address),
     ("verified", .bool false),
     ("message", .str e),
     ("result", .null)]

/-- The summary the filter emits for one contract-creation transaction,
as a total function of the transaction and the network oracle. -/
def mkSummary (block_number : Nat) (net : String → EtherscanOutcome)
    (tx : Transaction) : Record :=
  match tx.creates with
  | none => mkBaseSummary block_number tx
  | some c =>
    if c = "" then mkBaseSummary block_number tx
    else
      mkBaseSummary block_number tx ++
        [("contractAddress", .str c),
         ("verified",
           (dictLookup (checkResultGood c (net c)) "verified").getD .null),
         ("verificationMessage",
           (dictLookup (checkResultGood c (net c)) "message").getD .null)]

/-- The blocks on which the filter body raises nothing: an unusable result,
or a payload whose `number` parses and whose transactions all carry a `to`
key. -/
def blockGood (b : BlockResult) : Bool :=
  match b.result with
  | none => true
  | some p =>
    (parseHexNat p.number).isSome && p.transactions.all (fun tx => tx.to_.isSome)

/-- The summaries one block contributes, in transaction order. -/
def blockSummaries (net : String → EtherscanOutcome) (b : BlockResult) :
    List Record :=
  match b.result with
  | none => []
  | some p =>
    match parseHexNat p.number with
    | none => []
    | some n =>
      (p.transactions.filter (fun tx => tx.to_ == some none)).map
        (mkSummary n net)

/-- All summaries of a batch response, in block order then transaction
order. -/
def creationSummaries (net : String → EtherscanOutcome)
    (blocks : List BlockResult) : List Record :=
  (blocks.map (blockSummaries net)).flatten

/-- The number of transactions with a null `to` field in one usable
block. -/
def countNullToBlock (b : BlockResult) : Nat :=
  match b.result with
  | none => 0
  | some p => (p.transactions.filter (fun tx => tx.to_ == some none)).length

/-- The number of transactions with a null `to` field across the usable
blocks of a batch response. -/
def countNullTo (blocks : List BlockResult) : Nat :=
  (blocks.map countNullToBlock).sum

end BlockchainDataCollector

namespace PoolCollector

/-- `PoolCollector.base_url` (getpools.py line 10). -/
def base_url : String := "https://api.geckoterminal.com/api/v2"

/-- `PoolCollector.network` (getpools.py line 15). -/
def network : String := "eth"

/-- The character-list core of Python's
`pool_address.replace('eth_', '')` (getpools.py line 43): remove every
(leftmost-first, non-overlapping) occurrence of `"eth_"`. -/
def stripEthOcc : List Char → List Char
  | [] => []
  | 'e' :: 't' :: 'h' :: '_' :: rest => stripEthOcc rest
  | c :: rest => c :: stripEthOcc rest

/-- `pool_address.replace('eth_', '')` on strings. -/
def pyReplaceEth (s : String) : String := (stripEthOcc s.toList).asString

/-- The URL `PoolCollector.get_pool_details` builds (getpools.py lines
38-44): the per-pool endpoint for the id after the `replace`. -/
def get_pool_details_url (pool_address : String) : String :=
  base_url ++ "/networks/" ++ network ++ "/pools/" ++ pyReplaceEth pool_address

/-- Whether `"eth_"` occurs anywhere in a character list (the condition
under which `replace` changes more than a leading prefix). -/
def containsEthOcc : List Char → Bool
  | [] => false
  | 'e' :: 't' :: 'h' :: '_' :: _ => true
  | _ :: rest => containsEthOcc rest

/-- Modelled from the claim's words, for comparison with the code: strip
one leading `"eth_"` prefix and leave the remainder unchanged. -/
def claimStripLeadingEth (s : String) : String :=
  match s.toList with
  | 'e' :: 't' :: 'h' :: '_' :: rest => rest.asString
  | _ => s

end PoolCollector

open BlockchainDataCollector

/-! ## Helper lemmas -/

theorem dictLookup_cons_eq (k : String) (v : Value) (r : Record) :
    dictLookup ((k, v) :: r) k = some v := by
  simp [dictLookup]

theorem dictLookup_cons_ne (k2 k : String) (v : Value) (r : Record)
    (h : k2 ≠ k) : dictLookup ((k2, v) :: r) k = dictLookup r k := by
  simp [dictLookup, h]

theorem create_batch_request_length (start_block end_block : Int) :
    (create_batch_request start_block end_block).length =
      (end_block + 1 - start_block).toNat := by
  rw [create_batch_request, List.length_map, List.length_range]

theorem create_batch_request_get (start_block end_block : Int) (i : Nat)
    (hi : i < (create_batch_request start_block end_block).length) :
    (create_batch_request start_block end_block).get ⟨i, hi⟩ =
      { jsonrpc := "2.0"
        id := start_block + i
        method := "eth_getBlockByNumber"
        params := (pyHex (start_block + i), true) } := by
  simp only [create_batch_request, List.get_eq_getElem, List.getElem_map,
    List.getElem_range]

/-! ## Claim theorems -/

/-- C1: for every inclusive integer range `[start_block, end_block]` with
`start_block ≤ end_block`, `create_batch_request` returns a list of exactly
`end_block - start_block + 1` call objects whose identifiers are strictly
increasing and equal to the block numbers of the range, each with the fixed
method `"eth_getBlockByNumber"` and parameters `(hex(blockNumber), true)`. -/
theorem create_batch_request_range_spec (start_block end_block : Int)
    (h : start_block ≤ end_block) :
    (((create_batch_request start_block end_block).length : Int) =
        end_block - start_block + 1) ∧
    (∀ i (hi : i < (create_batch_request start_block end_block).length),
        (create_batch_request start_block end_block).get ⟨i, hi⟩ =
          { jsonrpc := "2.0"
            id := start_block + i
            method := "eth_getBlockByNumber"
            params := (pyHex (start_block + i), true) }) ∧
    (∀ i j (hi : i < (create_batch_request start_block end_block).length)
        (hj : j < (create_batch_request start_block end_block).length), i < j →
        ((create_batch_request start_block end_block).get ⟨i, hi⟩).id <
          ((create_batch_request start_block end_block).get ⟨j, hj⟩).id) := by
  refine ⟨?_, ?_, ?_⟩
  · rw [create_batch_request_length]
    omega
  · intro i hi
    exact create_batch_request_get start_block end_block i hi
  · intro i j hi hj hij
    rw [create_batch_request_get start_block end_block i hi,
      create_batch_request_get start_block end_block j hj]
    simp only []
    omega

/-- Witness for C1 at the concrete range `[5, 7]`. -/
theorem create_batch_request_range_spec_witness :
    (5 : Int) ≤ 7 ∧
    ((((create_batch_request 5 7).length : Int) = 7 - 5 + 1) ∧
     (∀ i (hi : i < (create_batch_request 5 7).length),
         (create_batch_request 5 7).get ⟨i, hi⟩ =
           { jsonrpc := "2.0"
             id := 5 + i
             method := "eth_getBlockByNumber"
             params := (pyHex (5 + i), true) }) ∧
     (∀ i j (hi : i < (create_batch_request 5 7).length)
         (hj : j < (create_batch_request 5 7).length), i < j →
         ((create_batch_request 5 7).get ⟨i, hi⟩).id <
           ((create_batch_request 5 7).get ⟨j, hj⟩).id)) :=
  ⟨by decide, create_batch_request_range_spec 5 7 (by decide)⟩

/-- C6: for `start_block > end_block` the batch is empty, and for
`start_block = end_block` it has exactly one entry; neither case is an
error (the function is total). -/
theorem create_batch_request_boundary_spec (start_block end_block : Int) :
    (end_block < start_block → create_batch_request start_block end_block = []) ∧
    (create_batch_request start_block start_block).length = 1 := by
  constructor
  · intro h
    have h0 : (end_block + 1 - start_block).toNat = 0 := by omega
    simp [create_batch_request, h0]
  · rw [create_batch_request_length]
    omega

/-- Witness for C6 at the concrete ranges `[3, 2]` (empty) and `[4, 4]`
(singleton). -/
theorem create_batch_request_boundary_spec_witness :
    ((2 : Int) < 3 ∧ create_batch_request 3 2 = []) ∧
    (create_batch_request 4 4).length = 1 :=
  ⟨⟨by decide, (create_batch_request_boundary_spec 3 2).1 (by decide)⟩,
    (create_batch_request_boundary_spec 4 4).2⟩

theorem check_eq_good (a : String) (o : EtherscanOutcome)
    (h : statusPresent o = true) :
    check_contract_verification a o = .ok (checkResultGood a o) := by
  cases o with
  | reqError e => rfl
  | ok data =>
    have h2 : (dictLookup data "status").isSome = true := h
    obtain ⟨v, hv⟩ := Option.isSome_iff_exists.mp h2
    simp [check_contract_verification, checkResultGood, hv]

/-- C3 (amended): `check_contract_verification` returns `verified=true` iff
the `status` field is present and equal to the literal string `"1"`; any
other present value yields `verified=false`; an absent `status` field
raises an uncaught key-lookup fault rather than returning a result; and a
transport or parse failure yields a not-verified record whose message is
the error text. -/
theorem check_contract_verification_status_spec :
    (∀ (a : String) (data : Record) (v : Value),
        dictLookup data "status" = some v →
        ∃ r, check_contract_verification a (EtherscanOutcome.ok data) = .ok r ∧
          (dictLookup r "verified" = some (Value.bool true) ↔ v = Value.str "1") ∧
          (v ≠ Value.str "1" → dictLookup r "verified" = some (Value.bool false)) ∧
          dictLookup r "message" =
            some ((dictLookup data "message").getD (Value.str "Unknown"))) ∧
    (∀ (a : String) (data : Record), dictLookup data "status" = none →
        check_contract_verification a (EtherscanOutcome.ok data) =
          .error "KeyError: status") ∧
    (∀ (a e : String),
        check_contract_verification a (EtherscanOutcome.reqError e) =
          .ok [("address", Value.str a), ("verified", Value.bool false),
               ("message", Value.str e), ("result", Value.null)]) := by
  refine ⟨?_, ?_, ?_⟩
  · intro a data v hv
    refine ⟨[("address", .str a), ("verified", .bool (v == .str "1")),
             ("message", (dictLookup data "message").getD (.str "Unknown")),
             ("result", (dictLookup data "result").getD .null)], ?_, ?_, ?_, ?_⟩
    · simp [check_contract_verification, hv]
    · rw [dictLookup_cons_ne _ _ _ _ (by decide), dictLookup_cons_eq]
      simp [beq_iff_eq]
    · intro hne
      rw [dictLookup_cons_ne _ _ _ _ (by decide), dictLookup_cons_eq]
      simp [beq_eq_false_iff_ne.mpr hne]
    · rw [dictLookup_cons_ne _ _ _ _ (by decide),
        dictLookup_cons_ne _ _ _ _ (by decide), dictLookup_cons_eq]
  · intro a data h
    simp [check_contract_verification, h]
  · intro a e
    rfl

/-- Counterexample to C3 as stated: with the `status` field absent from the
upstream payload, the code raises an uncaught `KeyError` instead of
returning a `verified=false` result. -/
theorem check_contract_verification_absent_status_counterexample :
    check_contract_verification "0xabc"
        (EtherscanOutcome.ok [("message", Value.str "NOTOK")]) =
      .error "KeyError: status" := rfl

/-- Witness for C3 (amended) at concrete inputs: a present `status = "1"`,
an absent `status`, and a transport failure. -/
theorem check_contract_verification_status_spec_witness :
    (∃ r, check_contract_verification "0xa"
        (EtherscanOutcome.ok [("status", Value.str "1")]) = .ok r ∧
      (dictLookup r "verified" = some (Value.bool true) ↔
        Value.str "1" = Value.str "1") ∧
      (Value.str "1" ≠ Value.str "1" →
        dictLookup r "verified" = some (Value.bool false)) ∧
      dictLookup r "message" =
        some ((dictLookup [("status", Value.str "1")] "message").getD
          (Value.str "Unknown"))) ∧
    check_contract_verification "0xb"
        (EtherscanOutcome.ok [("result", Value.null)]) =
      .error "KeyError: status" ∧
    check_contract_verification "0xc" (EtherscanOutcome.reqError "timeout") =
      .ok [("address", Value.str "0xc"), ("verified", Value.bool false),
           ("message", Value.str "timeout"), ("result", Value.null)] :=
  ⟨check_contract_verification_status_spec.1 "0xa" _ _ rfl,
   check_contract_verification_status_spec.2.1 "0xb" _ rfl,
   check_contract_verification_status_spec.2.2 "0xc" "timeout"⟩

/-- C9: whenever `check_contract_verification` returns a record (on either
return site — upstream success or caught request failure), that record has
exactly the four keys `address`, `verified`, `message`, `result`, in that
order, and its `address` field is the input contract address. -/
theorem check_contract_verification_record_shape (contract_address : String)
    (o : EtherscanOutcome) (r : Record)
    (h : check_contract_verification contract_address o = .ok r) :
    recordKeys r = ["address", "verified", "message", "result"] ∧
    dictLookup r "address" = some (Value.str contract_address) := by
  cases o with
  | reqError e =>
    simp [check_contract_verification] at h
    subst h
    exact ⟨rfl, rfl⟩
  | ok data =>
    cases hs : dictLookup data "status" with
    | none => simp [check_contract_verification, hs] at h
    | some v =>
      simp [check_contract_verification, hs] at h
      subst h
      exact ⟨rfl, rfl⟩

/-- Witness for C9 at a concrete failure outcome. -/
theorem check_contract_verification_record_shape_witness :
    recordKeys [("address", Value.str "0xdead"), ("verified", Value.bool false),
        ("message", Value.str "down"), ("result", Value.null)] =
      ["address", "verified", "message", "result"] ∧
    dictLookup [("address", Value.str "0xdead"), ("verified", Value.bool false),
        ("message", Value.str "down"), ("result", Value.null)] "address" =
      some (Value.str "0xdead") :=
  check_contract_verification_record_shape "0xdead"
    (EtherscanOutcome.reqError "down") _ rfl

theorem processTx_char (block_number : Nat) (net : String → EtherscanOutcome)
    (tx : Transaction) (hto : tx.to_.isSome = true)
    (hn : ∀ a, statusPresent (net a) = true) :
    processTx block_number net tx =
      .ok (if tx.to_ == some none then some (mkSummary block_number net tx)
           else none) := by
  match hto2 : tx.to_ with
  | none => rw [hto2] at hto; cases hto
  | some (some addr) => simp [processTx, hto2]
  | some none =>
    cases hc : tx.creates with
    | none => simp [processTx, mkSummary, hto2, hc]
    | some c =>
      by_cases hce : c = ""
      · simp [processTx, mkSummary, hto2, hc, hce]
      · have hnc := hn c
        cases ho : net c with
        | reqError e =>
          simp [processTx, mkSummary, hto2, hc, hce, ho,
            check_contract_verification, checkResultGood, dictLookup]
        | ok data =>
          rw [ho] at hnc
          have h2 : (dictLookup data "status").isSome = true := hnc
          obtain ⟨v, hv⟩ := Option.isSome_iff_exists.mp h2
          simp [processTx, mkSummary, hto2, hc, hce, ho,
            check_contract_verification, checkResultGood, hv, dictLookup]

theorem processTxs_char (block_number : Nat) (net : String → EtherscanOutcome)
    (txs : List Transaction) (hto : ∀ tx ∈ txs, tx.to_.isSome = true)
    (hn : ∀ a, statusPresent (net a) = true) :
    processTxs block_number net txs =
      .ok ((txs.filter (fun tx => tx.to_ == some none)).map
        (mkSummary block_number net)) := by
  induction txs with
  | nil => rfl
  | cons tx rest ih =>
    have h1 := processTx_char block_number net tx
      (hto tx (List.mem_cons_self tx rest)) hn
    have h2 := ih (fun t ht => hto t (List.mem_cons_of_mem tx ht))
    by_cases hb : (tx.to_ == some none) = true
    · simp [processTxs, h1, h2, hb, List.filter_cons]
    · simp [processTxs, h1, h2, hb, List.filter_cons]

theorem processBlock_char (net : String → EtherscanOutcome) (b : BlockResult)
    (hb : blockGood b = true) (hn : ∀ a, statusPresent (net a) = true) :
    processBlock net b = .ok (blockSummaries net b) := by
  cases hres : b.result with
  | none => simp [processBlock, blockSummaries, hres]
  | some p =>
    rw [blockGood, hres] at hb
    rw [Bool.and_eq_true] at hb
    obtain ⟨n, hn2⟩ := Option.isSome_iff_exists.mp hb.1
    have hall : ∀ tx ∈ p.transactions, tx.to_.isSome = true := by
      have := hb.2
      rw [List.all_eq_true] at this
      exact fun tx htx => this tx htx
    simp [processBlock, blockSummaries, hres, hn2,
      processTxs_char n net p.transactions hall hn]

theorem filter_char (blocks : List BlockResult) (net : String → EtherscanOutcome)
    (hb : ∀ b ∈ blocks, blockGood b = true)
    (hn : ∀ a, statusPresent (net a) = true) :
    filter_contract_creations blocks net = .ok (creationSummaries net blocks) := by
  induction blocks with
  | nil => rfl
  | cons b rest ih =>
    have h1 := processBlock_char net b (hb b (List.mem_cons_self b rest)) hn
    have h2 := ih (fun x hx => hb x (List.mem_cons_of_mem b hx))
    simp [filter_contract_creations, h1, h2, creationSummaries]

theorem blockSummaries_length (net : String → EtherscanOutcome)
    (b : BlockResult) (hb : blockGood b = true) :
    (blockSummaries net b).length = countNullToBlock b := by
  cases hres : b.result with
  | none => simp [blockSummaries, countNullToBlock, hres]
  | some p =>
    rw [blockGood, hres] at hb
    rw [Bool.and_eq_true] at hb
    obtain ⟨n, hn2⟩ := Option.isSome_iff_exists.mp hb.1
    simp [blockSummaries, countNullToBlock, hres, hn2]

theorem mkSummary_blockNumber (n : Nat) (net : String → EtherscanOutcome)
    (tx : Transaction) :
    dictLookup (mkSummary n net tx) "blockNumber" = some (Value.nat n) := by
  cases hcr : tx.creates with
  | none =>
    simp only [mkSummary, hcr, mkBaseSummary]
    rw [dictLookup_cons_ne _ _ _ _ (by decide), dictLookup_cons_eq]
  | some c =>
    by_cases hc : c = ""
    · simp only [mkSummary, hcr, if_pos hc, mkBaseSummary]
      rw [dictLookup_cons_ne _ _ _ _ (by decide), dictLookup_cons_eq]
    · simp only [mkSummary, hcr, if_neg hc, mkBaseSummary, List.cons_append]
      rw [dictLookup_cons_ne _ _ _ _ (by decide), dictLookup_cons_eq]

/-- C4 (amended): for every list of block results whose usable blocks carry
valid hex `number` fields and whose transactions all have a `to` key (null
or not), and for which every triggered `creates`-verification lookup gets a
status-bearing (or failed) response, `filter_contract_creations` returns
exactly `countNullTo blocks` summaries — one per null-`to` transaction,
none for the others — in block order and then transaction order within
each block (`creationSummaries`).  A transaction whose `to` key is absent
instead raises an uncaught key-lookup fault (see the counterexample). -/
theorem filter_contract_creations_count_order_spec (blocks : List BlockResult)
    (net : String → EtherscanOutcome)
    (hb : ∀ b ∈ blocks, blockGood b = true)
    (hn : ∀ a, statusPresent (net a) = true) :
    filter_contract_creations blocks net = .ok (creationSummaries net blocks) ∧
    (creationSummaries net blocks).length = countNullTo blocks := by
  refine ⟨filter_char blocks net hb hn, ?_⟩
  unfold creationSummaries countNullTo
  rw [List.length_flatten, List.map_map]
  refine congrArg List.sum ?_
  apply List.map_congr_left
  intro b hbm
  exact blockSummaries_length net b (hb b hbm)

/-- Counterexample to C4 as stated: a block result whose single transaction
lacks the `to` key entirely (N = 1 absent/null-`to` transaction) makes
`filter_contract_creations` raise an uncaught `KeyError` instead of
returning one summary. -/
theorem filter_contract_creations_absent_to_counterexample :
    filter_contract_creations
        [⟨some ⟨"0x1", [⟨"0xaaa", "0xbbb", none, "0x0", "0x1", none⟩]⟩⟩]
        (fun _ => EtherscanOutcome.reqError "offline") =
      .error "KeyError: to" := rfl

/-- Witness for C4 (amended) at a concrete two-transaction block (one
null-`to` creation, one addressed transfer). -/
theorem filter_contract_creations_count_order_spec_witness :
    (∀ b ∈ [BlockResult.mk (some ⟨"0x2",
        [⟨"0xh1", "0xf1", some none, "0x0", "0x5", none⟩,
         ⟨"0xh2", "0xf2", some (some "0xccc"), "0x1", "0x6", none⟩]⟩)],
      blockGood b = true) ∧
    (∀ a, statusPresent ((fun (_ : String) => EtherscanOutcome.reqError "down") a) = true) ∧
    (filter_contract_creations
        [BlockResult.mk (some ⟨"0x2",
          [⟨"0xh1", "0xf1", some none, "0x0", "0x5", none⟩,
           ⟨"0xh2", "0xf2", some (some "0xccc"), "0x1", "0x6", none⟩]⟩)]
        (fun (_ : String) => EtherscanOutcome.reqError "down") =
      .ok (creationSummaries (fun (_ : String) => EtherscanOutcome.reqError "down")
        [BlockResult.mk (some ⟨"0x2",
          [⟨"0xh1", "0xf1", some none, "0x0", "0x5", none⟩,
           ⟨"0xh2", "0xf2", some (some "0xccc"), "0x1", "0x6", none⟩]⟩)]) ∧
    (creationSummaries (fun (_ : String) => EtherscanOutcome.reqError "down")
        [BlockResult.mk (some ⟨"0x2",
          [⟨"0xh1", "0xf1", some none, "0x0", "0x5", none⟩,
           ⟨"0xh2", "0xf2", some (some "0xccc"), "0x1", "0x6", none⟩]⟩)]).length =
      countNullTo
        [BlockResult.mk (some ⟨"0x2",
          [⟨"0xh1", "0xf1", some none, "0x0", "0x5", none⟩,
           ⟨"0xh2", "0xf2", some (some "0xccc"), "0x1", "0x6", none⟩]⟩)]) :=
  ⟨by decide, fun _ => rfl,
   filter_contract_creations_count_order_spec
     [BlockResult.mk (some ⟨"0x2",
       [⟨"0xh1", "0xf1", some none, "0x0", "0x5", none⟩,
        ⟨"0xh2", "0xf2", some (some "0xccc"), "0x1", "0x6", none⟩]⟩)]
     (fun (_ : String) => EtherscanOutcome.reqError "down")
     (by decide) (fun _ => rfl)⟩

/-- C2 (amended): on inputs where the filter raises nothing, its output is
exactly `creationSummaries` — the in-order concatenation of the per-block
lists `blockSummaries net b` — and within the list contributed by any
block `b` whose payload's hex `number` field decodes to `n`, every
summary's `blockNumber` field equals `n`: the decimal value of that
block's own hex-encoded `number` field.  In particular the hex string
`"0x1452f65"` decodes to the decimal value `21311333` (not `21323365`,
which is `0x1455e65`; see the counterexample). -/
theorem summary_blockNumber_spec (blocks : List BlockResult)
    (net : String → EtherscanOutcome)
    (hb : ∀ b ∈ blocks, blockGood b = true)
    (hn : ∀ a, statusPresent (net a) = true) :
    filter_contract_creations blocks net =
      .ok (creationSummaries net blocks) ∧
    creationSummaries net blocks = (blocks.map (blockSummaries net)).flatten ∧
    (∀ b ∈ blocks, ∀ p, b.result = some p →
        ∀ n, parseHexNat p.number = some n →
          ∀ r ∈ blockSummaries net b,
            dictLookup r "blockNumber" = some (Value.nat n)) ∧
    parseHexNat "0x1452f65" = some 21311333 := by
  refine ⟨filter_char blocks net hb hn, rfl, ?_, rfl⟩
  intro b _ p hp n hpn r hr
  simp only [blockSummaries, hp, hpn] at hr
  rw [List.mem_map] at hr
  obtain ⟨tx, _, rfl⟩ := hr
  exact mkSummary_blockNumber n net tx

/-- Counterexample to C2 as stated: a usable block whose hex `number` field
is `"0x1452f65"` yields a summary whose `blockNumber` is `21311333`, and
`21311333 ≠ 21323365` — the decimal value the claim asserts for this hex
string. -/
theorem summary_blockNumber_example_counterexample :
    filter_contract_creations
        [⟨some ⟨"0x1452f65", [⟨"0xh", "0xf", some none, "0x0", "0x1", none⟩]⟩⟩]
        (fun _ => EtherscanOutcome.reqError "x") =
      .ok [[("txHash", Value.str "0xh"), ("blockNumber", Value.nat 21311333),
            ("creator", Value.str "0xf"), ("value", Value.str "0x0"),
            ("gasPrice", Value.str "0x1")]] ∧
    (21311333 : Nat) ≠ 21323365 := ⟨rfl, by decide⟩

/-- Witness for C2 (amended) at a concrete one-block input. -/
theorem summary_blockNumber_spec_witness :
    (∀ b ∈ [BlockResult.mk (some ⟨"0x10",
        [⟨"0xdd", "0xee", some none, "0x5", "0x6", none⟩]⟩)],
      blockGood b = true) ∧
    (∀ a, statusPresent ((fun (_ : String) => EtherscanOutcome.reqError "w") a) = true) ∧
    (filter_contract_creations
        [BlockResult.mk (some ⟨"0x10",
          [⟨"0xdd", "0xee", some none, "0x5", "0x6", none⟩]⟩)]
        (fun (_ : String) => EtherscanOutcome.reqError "w") =
      .ok (creationSummaries (fun (_ : String) => EtherscanOutcome.reqError "w")
        [BlockResult.mk (some ⟨"0x10",
          [⟨"0xdd", "0xee", some none, "0x5", "0x6", none⟩]⟩)]) ∧
    creationSummaries (fun (_ : String) => EtherscanOutcome.reqError "w")
        [BlockResult.mk (some ⟨"0x10",
          [⟨"0xdd", "0xee", some none, "0x5", "0x6", none⟩]⟩)] =
      ([BlockResult.mk (some ⟨"0x10",
          [⟨"0xdd", "0xee", some none, "0x5", "0x6", none⟩]⟩)].map
        (blockSummaries (fun (_ : String) => EtherscanOutcome.reqError "w"))).flatten ∧
    (∀ b ∈ [BlockResult.mk (some ⟨"0x10",
          [⟨"0xdd", "0xee", some none, "0x5", "0x6", none⟩]⟩)],
        ∀ p, b.result = some p →
          ∀ n, parseHexNat p.number = some n →
            ∀ r ∈ blockSummaries
                (fun (_ : String) => EtherscanOutcome.reqError "w") b,
              dictLookup r "blockNumber" = some (Value.nat n)) ∧
    parseHexNat "0x1452f65" = some 21311333) :=
  ⟨by decide, fun _ => rfl,
   summary_blockNumber_spec
     [BlockResult.mk (some ⟨"0x10",
       [⟨"0xdd", "0xee", some none, "0x5", "0x6", none⟩]⟩)]
     (fun (_ : String) => EtherscanOutcome.reqError "w")
     (by decide) (fun _ => rfl)⟩

/-- C5: for every batch range, `fetch_blocks` issues exactly one network
call, carrying the whole batch as its body (the call trace is exactly
`[create_batch_request ...]`, so there is no retry), and whenever that call
fails with a `requests.RequestException` — transport failure or non-success
HTTP status — the caller receives `[]`: the batch is entirely unavailable,
with no partial results. -/
theorem fetch_blocks_single_call_spec (start_block end_block : Int)
    (transport : List RpcCall → FetchOutcome) :
    (fetch_blocks start_block end_block transport).2 =
      [create_batch_request start_block end_block] ∧
    (∀ msg, transport (create_batch_request start_block end_block) =
        .reqError msg →
      (fetch_blocks start_block end_block transport).1 = []) := by
  constructor
  · cases h : transport (create_batch_request start_block end_block) with
    | ok body => simp [fetch_blocks, h]
    | reqError m => simp [fetch_blocks, h]
  · intro msg hmsg
    simp [fetch_blocks, hmsg]

/-- Witness for C5 at the concrete range `[1, 2]` with a refused
transport. -/
theorem fetch_blocks_single_call_spec_witness :
    ((fetch_blocks 1 2
        (fun (_ : List RpcCall) => FetchOutcome.reqError "refused")).2 =
      [create_batch_request 1 2]) ∧
    ((fun (_ : List RpcCall) => FetchOutcome.reqError "refused")
        (create_batch_request 1 2) = FetchOutcome.reqError "refused" ∧
      (fetch_blocks 1 2
        (fun (_ : List RpcCall) => FetchOutcome.reqError "refused")).1 = []) :=
  ⟨(fetch_blocks_single_call_spec 1 2
      (fun (_ : List RpcCall) => FetchOutcome.reqError "refused")).1,
   rfl,
   (fetch_blocks_single_call_spec 1 2
      (fun (_ : List RpcCall) => FetchOutcome.reqError "refused")).2
     "refused" rfl⟩

theorem writeRow_self (r : Record) :
    writeRow (recordKeys r) r =
      .ok ((recordKeys r).map (fun k => csvCell (dictLookup r k))) := by
  unfold writeRow
  rw [if_pos]
  rw [List.all_eq_true]
  intro kv hkv
  have hmem : kv.1 ∈ recordKeys r := List.mem_map_of_mem Prod.fst hkv
  exact List.elem_eq_true_of_mem hmem

/-- C7: `save_to_csv` on an empty record list performs no file write and
reports that nothing was saved; on a single record it writes a header row
equal to that record's keys followed by exactly one data row (the record's
values in key order). -/
theorem save_to_csv_empty_single_spec :
    save_to_csv [] = .ok (SaveResult.nothingSaved "No contracts to save") ∧
    (∀ r : Record, save_to_csv [r] =
      .ok (SaveResult.saved (recordKeys r)
        [(recordKeys r).map (fun k => csvCell (dictLookup r k))]
        "Saved 1 contracts to contract_creations.csv")) := by
  constructor
  · rfl
  · intro r
    simp only [save_to_csv, writeRowsAux, writeRow_self]
    congr 2
    · rw [List.length_singleton]
      decide

/-- C10: a concrete block-data input on which the two summaries emitted by
`filter_contract_creations` do not share one key set: the transaction
carrying a non-empty `creates` field gets the three extra keys
`contractAddress`, `verified`, `verificationMessage`, the other does not —
so the filter's output does not always satisfy the identical-key-set
precondition of `save_to_csv`. -/
theorem filter_output_key_sets_differ :
    ∃ r1 r2, filter_contract_creations
        [⟨some ⟨"0x3",
          [⟨"0xt1", "0xa1", some none, "0x0", "0x7", some "0xnew"⟩,
           ⟨"0xt2", "0xa2", some none, "0x0", "0x8", none⟩]⟩⟩]
        (fun (_ : String) => EtherscanOutcome.ok
          [("status", Value.str "1"), ("message", Value.str "OK"),
           ("result", Value.str "abi")]) = .ok [r1, r2] ∧
      recordKeys r1 = ["txHash", "blockNumber", "creator", "value", "gasPrice",
        "contractAddress", "verified", "verificationMessage"] ∧
      recordKeys r2 = ["txHash", "blockNumber", "creator", "value", "gasPrice"] ∧
      recordKeys r1 ≠ recordKeys r2 := by
  refine ⟨[("txHash", Value.str "0xt1"), ("blockNumber", Value.nat 3),
           ("creator", Value.str "0xa1"), ("value", Value.str "0x0"),
           ("gasPrice", Value.str "0x7"), ("contractAddress", Value.str "0xnew"),
           ("verified", Value.bool true), ("verificationMessage", Value.str "OK")],
          [("txHash", Value.str "0xt2"), ("blockNumber", Value.nat 3),
           ("creator", Value.str "0xa2"), ("value", Value.str "0x0"),
           ("gasPrice", Value.str "0x8")], rfl, rfl, rfl, by decide⟩

open PoolCollector

theorem containsEthOcc_eth (l : List Char) :
    containsEthOcc ('e' :: 't' :: 'h' :: '_' :: l) = true := rfl

theorem stripEthOcc_eth (l : List Char) :
    stripEthOcc ('e' :: 't' :: 'h' :: '_' :: l) = stripEthOcc l := rfl

theorem stripEthOcc_cons (c : Char) (l : List Char)
    (h : ∀ t, c :: l ≠ 'e' :: 't' :: 'h' :: '_' :: t) :
    stripEthOcc (c :: l) = c :: stripEthOcc l := by
  conv_lhs => unfold stripEthOcc
  split
  · next heq => exact absurd heq (List.cons_ne_nil c l)
  · next t heq => exact absurd heq (h t)
  · next hne heq =>
      injection heq with h1 h2
      subst h1
      subst h2
      rfl

theorem containsEthOcc_cons (c : Char) (l : List Char)
    (h : ∀ t, c :: l ≠ 'e' :: 't' :: 'h' :: '_' :: t) :
    containsEthOcc (c :: l) = containsEthOcc l := by
  conv_lhs => unfold containsEthOcc
  split
  · next heq => exact absurd heq (List.cons_ne_nil c l)
  · next t heq => exact absurd heq (h t)
  · next hne heq =>
      injection heq with h1 h2
      subst h1
      subst h2
      rfl

theorem stripEthOcc_no_occ (l : List Char) (hc : containsEthOcc l = false) :
    stripEthOcc l = l := by
  induction l with
  | nil => rfl
  | cons c rest ih =>
    by_cases hp : ∃ t, c :: rest = 'e' :: 't' :: 'h' :: '_' :: t
    · obtain ⟨t, ht⟩ := hp
      rw [ht, containsEthOcc_eth] at hc
      cases hc
    · push_neg at hp
      rw [containsEthOcc_cons c rest hp] at hc
      rw [stripEthOcc_cons c rest hp, ih hc]

/-- C8 (amended): `get_pool_details` removes every occurrence of the
substring `"eth_"` from the pool id before building the per-pool URL (a
Python `str.replace`, not a prefix strip); in particular, when the id is
`"eth_"` followed by a remainder containing no further occurrence of
`"eth_"`, the URL ends with that remainder unchanged.  For ids with
further occurrences the remainder is altered (see the counterexample). -/
theorem get_pool_details_url_strip_spec (rest : String)
    (h : containsEthOcc rest.toList = false) :
    get_pool_details_url ("eth_" ++ rest) =
      base_url ++ "/networks/" ++ network ++ "/pools/" ++ rest := by
  unfold get_pool_details_url pyReplaceEth
  have h1 : ("eth_" ++ rest).toList = 'e' :: 't' :: 'h' :: '_' :: rest.toList :=
    rfl
  rw [h1, stripEthOcc_eth, stripEthOcc_no_occ rest.toList h]
  rfl

/-- Counterexample to C8 as stated: for the pool id `"eth_xeth_y"` the code
removes both occurrences of `"eth_"` (Python `replace` is global), so the
URL ends in `"xy"` rather than the prefix-stripped remainder `"xeth_y"`
that the claim predicts (`claimStripLeadingEth`). -/
theorem get_pool_details_url_counterexample :
    get_pool_details_url "eth_xeth_y" =
      "https://api.geckoterminal.com/api/v2/networks/eth/pools/xy" ∧
    claimStripLeadingEth "eth_xeth_y" = "xeth_y" ∧
    get_pool_details_url "eth_xeth_y" ≠
      "https://api.geckoterminal.com/api/v2/networks/eth/pools/" ++
        claimStripLeadingEth "eth_xeth_y" := by
  refine ⟨rfl, rfl, ?_⟩
  decide

/-- Witness for C8 (amended) at the concrete id `"eth_0xabc123"`. -/
theorem get_pool_details_url_strip_spec_witness :
    containsEthOcc "0xabc123".toList = false ∧
    get_pool_details_url ("eth_" ++ "0xabc123") =
      base_url ++ "/networks/" ++ network ++ "/pools/" ++ "0xabc123" :=
  ⟨by decide, get_pool_details_url_strip_spec "0xabc123" (by decide)⟩
